import Mathlib

/-!
Verification of the AgentHub Python client SDK
(`packages/python/agenthub/client.py`).

The client is a single class `AgentHub` holding one field, the HTTP
transport `self._http`, and exposing two async methods:

  * `find_agent(name)`:
      `async with self._http.get("/agents", params={"name": name}) as resp:`
      `    data = await resp.json()`
      `    return data["agents"][0]`
  * `create_session(agent)`:
      `async with self._http.post("/sessions", json={"agent_id": agent["id"]}) as resp:`
      `    data = await resp.json()`
      `    return data["session"]`

Shallow embedding choices:

  * JSON values are the inductive type `Json`; a Python `Dict[str, Any]`
    argument is a key/value list `List (String × Json)`.
  * Python subscripting (`data["k"]`, `xs[0]`, `agent["id"]`) is modelled by
    `Json.getKey`, `Json.getIdx` and `dictGet`, which return
    `Except PyErr Json`: a raised `KeyError` / `IndexError` / `TypeError`
    becomes an `Except.error` value that propagates by monadic bind, exactly
    mirroring uncaught Python exception propagation (the client catches
    nothing).
  * The transport is a function `Request → Json`: for each issued request it
    yields the JSON value that `await resp.json()` produces.  Transport-level
    failures (connection errors, malformed bodies) are outside this model;
    all claims below concern requests that reach a JSON body.
  * Each method returns, besides its result, the trace of observable events
    (`Event.sent req` when the request is handed to the transport,
    `Event.acquired` / `Event.released` for entering and leaving the
    `async with` response scope) and the final values of the client object
    and, for `create_session`, of the `agent` argument.  Python's
    `async with` runs `__aexit__` on every exit path, normal or exceptional,
    so `Event.released` is emitted unconditionally once the scope was
    entered.  In `create_session` the request body `{"agent_id": agent["id"]}`
    is evaluated before `self._http.post` is invoked (Python evaluates
    arguments before the call), so a missing `"id"` key aborts the method
    with an empty event trace.  Neither method assigns to `self` or to
    `agent`, so the final client and argument values equal the initial ones.
-/

/-- JSON values as exchanged on the wire and produced by `resp.json()`. -/
inductive Json where
  | null : Json
  | bool (b : Bool) : Json
  | num (n : Int) : Json
  | str (s : String) : Json
  | arr (xs : List Json) : Json
  | obj (kvs : List (String × Json)) : Json
deriving Repr

/-- Python exception classes reachable from the client's subscripting
operations.  `KeyError` and `IndexError` are the two subclasses of
`LookupError`; `TypeError` is not a `LookupError`. -/
inductive PyErr where
  | keyError (key : String) : PyErr
  | indexError : PyErr
  | typeError : PyErr
deriving Repr, DecidableEq

/-- `LookupError` classification: Python's `KeyError` and `IndexError` are
both subclasses of `LookupError`; `TypeError` is not. -/
def PyErr.isLookupError : PyErr → Bool
  | .keyError _ => true
  | .indexError => true
  | .typeError => false

/-- `KeyError` classification. -/
def PyErr.isKeyError : PyErr → Bool
  | .keyError _ => true
  | _ => false

/-- Whether an operation outcome is an uncaught `LookupError`-class
exception. -/
def isLookupErrorResult : Except PyErr Json → Bool
  | .error e => e.isLookupError
  | .ok _ => false

/-- Whether an operation outcome is an uncaught `KeyError`-class
exception. -/
def isKeyErrorResult : Except PyErr Json → Bool
  | .error e => e.isKeyError
  | .ok _ => false

/-- Python list indexing `xs[i]` for a non-negative index: `IndexError` when
the index is out of range. -/
def listGet : List Json → Nat → Except PyErr Json
  | [], _ => .error PyErr.indexError
  | x :: _, 0 => .ok x
  | _ :: xs, n + 1 => listGet xs n

/-- Python subscripting `data[k]` with a string key on a decoded JSON value:
on a JSON object it is dict lookup (`KeyError` when the key is absent); on
any other JSON value a string subscript raises `TypeError`. -/
def Json.getKey : Json → String → Except PyErr Json
  | .obj kvs, k =>
    match kvs.lookup k with
    | some v => .ok v
    | none => .error (PyErr.keyError k)
  | _, _ => .error PyErr.typeError

/-- Python subscripting `data[i]` with integer index `i` on a decoded JSON
value: list indexing on a JSON array; on a JSON object it is dict lookup
with an integer key, which is never present since decoded JSON objects have
string keys only, hence `KeyError`; on the remaining values `TypeError`. -/
def Json.getIdx : Json → Nat → Except PyErr Json
  | .arr xs, i => listGet xs i
  | .obj _, i => .error (PyErr.keyError (toString i))
  | _, _ => .error PyErr.typeError

/-- Python dict subscripting `d[k]` on a `Dict[str, Any]` argument:
`KeyError` when the key is absent. -/
def dictGet (d : List (String × Json)) (k : String) : Except PyErr Json :=
  match d.lookup k with
  | some v => .ok v
  | none => .error (PyErr.keyError k)

/-- An outbound HTTP request as handed to the transport. -/
inductive Request where
  | get (path : String) (params : List (String × String)) : Request
  | post (path : String) (body : Json) : Request
deriving Repr

/-- Observable events of one client call: the request being handed to the
transport, and entry/exit of the `async with` response scope. -/
inductive Event where
  | sent (req : Request) : Event
  | acquired : Event
  | released : Event
deriving Repr

/-- The requests contained in an event trace. -/
def requestsOf (evs : List Event) : List Request :=
  evs.filterMap fun e =>
    match e with
    | .sent r => some r
    | _ => none

/-- The `AgentHub` client object: its only field is the HTTP transport
`self._http`, modelled as the function from each issued request to the JSON
body its response yields. -/
structure AgentHub where
  _http : Request → Json

/-- `find_agent(self, name)`: issues
`self._http.get("/agents", params={"name": name})`, enters the response
scope, reads `data = await resp.json()`, and evaluates
`data["agents"][0]`.  A `KeyError`/`IndexError` from the subscripts
propagates uncaught; `__aexit__` releases the response scope on every exit
path.  The method assigns nothing to `self`, so the final client value is
the input one. -/
def AgentHub.find_agent (hub : AgentHub) (name : String) :
    Except PyErr Json × List Event × AgentHub :=
  let req := Request.get "/agents" [("name", name)]
  let data := hub._http req
  ((data.getKey "agents").bind fun ags => ags.getIdx 0,
   [Event.sent req, Event.acquired, Event.released],
   hub)

/-- `create_session(self, agent)`: Python first evaluates the call argument
`{"agent_id": agent["id"]}`; a missing `"id"` key raises `KeyError` there,
before `self._http.post` is invoked, so no request is sent and no response
scope is entered.  Otherwise it issues
`self._http.post("/sessions", json={"agent_id": agent["id"]})`, enters the
response scope, reads `data = await resp.json()`, and evaluates
`data["session"]`, whose `KeyError` propagates uncaught; `__aexit__`
releases the scope on every exit path.  The method assigns nothing to
`self` or to `agent`, so both come back unchanged. -/
def AgentHub.create_session (hub : AgentHub) (agent : List (String × Json)) :
    Except PyErr Json × List Event × AgentHub × List (String × Json) :=
  match dictGet agent "id" with
  | .error e => (.error e, [], hub, agent)
  | .ok aid =>
    let req := Request.post "/sessions" (Json.obj [("agent_id", aid)])
    let data := hub._http req
    (data.getKey "session",
     [Event.sent req, Event.acquired, Event.released],
     hub, agent)

/-- The agent record used by the repository's acceptance test. -/
def demoAgent : Json :=
  Json.obj [("id", Json.str "test-agent-1"), ("name", Json.str "gpt4"),
            ("capabilities", Json.arr [Json.str "chat", Json.str "completion"])]

/-- `demoAgent` as the `Dict[str, Any]` argument of `create_session`. -/
def demoAgentDict : List (String × Json) :=
  [("id", Json.str "test-agent-1"), ("name", Json.str "gpt4"),
   ("capabilities", Json.arr [Json.str "chat", Json.str "completion"])]

/-- The session record used by the repository's acceptance test. -/
def demoSession : Json :=
  Json.obj [("id", Json.str "test-session-1"), ("agent_id", Json.str "test-agent-1"),
            ("status", Json.str "active")]

/-- A transport behaving like the acceptance test's mock: every GET yields
`{"agents": [demoAgent]}` and every POST yields `{"session": demoSession}`. -/
def demoTransport : Request → Json
  | Request.get _ _ => Json.obj [("agents", Json.arr [demoAgent])]
  | Request.post _ _ => Json.obj [("session", demoSession)]

/-- A client over `demoTransport`. -/
def demoHub : AgentHub := ⟨demoTransport⟩

/-- C1: `find_agent(name)` hands the transport exactly one request, the GET
of `/agents` with `name` as query parameter; and whenever the response body
is a JSON object whose `agents` key holds a non-empty array, the result is
the first element of that array, unchanged. -/
theorem find_agent_single_get_first (hub : AgentHub) (name : String) :
    requestsOf (hub.find_agent name).2.1 = [Request.get "/agents" [("name", name)]] ∧
    ∀ kvs a rest,
      hub._http (Request.get "/agents" [("name", name)]) = Json.obj kvs →
      kvs.lookup "agents" = some (Json.arr (a :: rest)) →
      (hub.find_agent name).1 = Except.ok a := by
  refine ⟨rfl, ?_⟩
  intro kvs a rest h1 h2
  simp [AgentHub.find_agent, Json.getKey, Json.getIdx, listGet, Except.bind, h1, h2]

/-- Witness for C1 on the acceptance test's transport: the sole request is
GET `/agents?name=gpt4` and the result is the test's agent record. -/
theorem find_agent_single_get_first_witness :
    requestsOf (demoHub.find_agent "gpt4").2.1 =
      [Request.get "/agents" [("name", "gpt4")]] ∧
    (demoHub.find_agent "gpt4").1 = Except.ok demoAgent :=
  ⟨(find_agent_single_get_first demoHub "gpt4").1,
   (find_agent_single_get_first demoHub "gpt4").2
     [("agents", Json.arr [demoAgent])] demoAgent [] rfl rfl⟩

/-- C10: `find_agent` returns `agents[0]` without comparing any field of it
to the queried name; in particular a first element whose `name` field
differs from the argument is still returned. -/
theorem find_agent_no_name_comparison (hub : AgentHub) (name : String)
    (kvs : List (String × Json)) (a : Json) (rest : List Json)
    (h1 : hub._http (Request.get "/agents" [("name", name)]) = Json.obj kvs)
    (h2 : kvs.lookup "agents" = some (Json.arr (a :: rest))) :
    (hub.find_agent name).1 = Except.ok a := by
  simp [AgentHub.find_agent, Json.getKey, Json.getIdx, listGet, Except.bind, h1, h2]

/-- An agent record whose `name` field is not the queried name. -/
def mismatchAgent : Json :=
  Json.obj [("id", Json.str "agent-2"), ("name", Json.str "claude3")]

/-- A client whose transport answers every request with
`{"agents": [mismatchAgent]}`. -/
def mismatchHub : AgentHub :=
  ⟨fun _ => Json.obj [("agents", Json.arr [mismatchAgent])]⟩

/-- Witness for C10: querying for `"gpt4"` returns an agent whose `name`
field is `"claude3"`, not `"gpt4"`. -/
theorem find_agent_no_name_comparison_witness :
    (mismatchHub.find_agent "gpt4").1 = Except.ok mismatchAgent ∧
    mismatchAgent.getKey "name" = Except.ok (Json.str "claude3") ∧
    Json.str "claude3" ≠ Json.str "gpt4" :=
  ⟨find_agent_no_name_comparison mismatchHub "gpt4"
     [("agents", Json.arr [mismatchAgent])] mismatchAgent [] rfl rfl,
   rfl, by simp⟩

/-- C2: for an agent mapping with an `id` field, `create_session(agent)`
hands the transport exactly one request, the POST of `/sessions` with JSON
body `{"agent_id": agent["id"]}`; and whenever the response body is a JSON
object with a `session` key, the result is that key's value, unchanged. -/
theorem create_session_single_post (hub : AgentHub) (agent : List (String × Json))
    (aid : Json) (h : agent.lookup "id" = some aid) :
    requestsOf (hub.create_session agent).2.1 =
      [Request.post "/sessions" (Json.obj [("agent_id", aid)])] ∧
    ∀ kvs s,
      hub._http (Request.post "/sessions" (Json.obj [("agent_id", aid)])) = Json.obj kvs →
      kvs.lookup "session" = some s →
      (hub.create_session agent).1 = Except.ok s := by
  constructor
  · simp [AgentHub.create_session, dictGet, h, requestsOf]
  · intro kvs s h1 h2
    simp [AgentHub.create_session, dictGet, h, h1, Json.getKey, h2]

/-- Witness for C2 on the acceptance test's transport and agent record: the
sole request is POST `/sessions` with body `{"agent_id": "test-agent-1"}`
and the result is the test's session record. -/
theorem create_session_single_post_witness :
    requestsOf (demoHub.create_session demoAgentDict).2.1 =
      [Request.post "/sessions" (Json.obj [("agent_id", Json.str "test-agent-1")])] ∧
    (demoHub.create_session demoAgentDict).1 = Except.ok demoSession :=
  ⟨(create_session_single_post demoHub demoAgentDict (Json.str "test-agent-1") rfl).1,
   (create_session_single_post demoHub demoAgentDict (Json.str "test-agent-1") rfl).2
     [("session", demoSession)] demoSession rfl rfl⟩

/-- C3: when the agent mapping lacks `"id"`, `create_session` fails with the
`KeyError` raised while building the request body, and its event trace is
empty: no POST request was handed to the transport and no response scope was
entered. -/
theorem create_session_missing_id_no_request (hub : AgentHub)
    (agent : List (String × Json)) (h : agent.lookup "id" = none) :
    (hub.create_session agent).1 = Except.error (PyErr.keyError "id") ∧
    (hub.create_session agent).2.1 = [] := by
  simp [AgentHub.create_session, dictGet, h]

/-- An agent mapping without an `"id"` key. -/
def idlessAgent : List (String × Json) := [("name", Json.str "gpt4")]

/-- Witness for C3: calling `create_session` on `idlessAgent` yields
`KeyError("id")` and an empty event trace. -/
theorem create_session_missing_id_no_request_witness :
    (demoHub.create_session idlessAgent).1 = Except.error (PyErr.keyError "id") ∧
    (demoHub.create_session idlessAgent).2.1 = [] :=
  create_session_missing_id_no_request demoHub idlessAgent rfl

/-- C4: when the response body is a JSON object whose `agents` key is absent
or holds an empty array, `find_agent` ends in a `LookupError`-class
exception (`KeyError("agents")` respectively `IndexError`), surfaced
unmodified, and returns no value. -/
theorem find_agent_empty_agents_lookup_error (hub : AgentHub) (name : String)
    (kvs : List (String × Json))
    (h : hub._http (Request.get "/agents" [("name", name)]) = Json.obj kvs)
    (h2 : kvs.lookup "agents" = none ∨ kvs.lookup "agents" = some (Json.arr [])) :
    isLookupErrorResult (hub.find_agent name).1 = true ∧
    ((hub.find_agent name).1 = Except.error (PyErr.keyError "agents") ∨
     (hub.find_agent name).1 = Except.error PyErr.indexError) := by
  rcases h2 with h2 | h2 <;>
    simp [AgentHub.find_agent, Json.getKey, Json.getIdx, listGet, Except.bind,
      isLookupErrorResult, PyErr.isLookupError, h, h2]

/-- A client whose transport answers every request with `{"agents": []}`. -/
def emptyAgentsHub : AgentHub := ⟨fun _ => Json.obj [("agents", Json.arr [])]⟩

/-- Witness for C4 on the empty-list transport: the call ends in a
`LookupError`-class exception. -/
theorem find_agent_empty_agents_lookup_error_witness :
    isLookupErrorResult (emptyAgentsHub.find_agent "gpt4").1 = true ∧
    ((emptyAgentsHub.find_agent "gpt4").1 = Except.error (PyErr.keyError "agents") ∨
     (emptyAgentsHub.find_agent "gpt4").1 = Except.error PyErr.indexError) :=
  find_agent_empty_agents_lookup_error emptyAgentsHub "gpt4"
    [("agents", Json.arr [])] rfl (Or.inr rfl)

/-- C5: over JSON-object response bodies, `create_session` ends in a
`KeyError`-class exception exactly when the agent mapping lacks `"id"` or
the body lacks `"session"`; in the first case the surfaced error is exactly
`KeyError("id")`, in the second exactly `KeyError("session")` — no wrapping
or translation. -/
theorem create_session_key_error_iff (hub : AgentHub)
    (agent : List (String × Json)) (kvs : List (String × Json))
    (h : ∀ aid, agent.lookup "id" = some aid →
      hub._http (Request.post "/sessions" (Json.obj [("agent_id", aid)])) = Json.obj kvs) :
    (isKeyErrorResult (hub.create_session agent).1 = true ↔
      (agent.lookup "id" = none ∨ kvs.lookup "session" = none)) ∧
    (agent.lookup "id" = none →
      (hub.create_session agent).1 = Except.error (PyErr.keyError "id")) ∧
    (agent.lookup "id" ≠ none → kvs.lookup "session" = none →
      (hub.create_session agent).1 = Except.error (PyErr.keyError "session")) := by
  cases h2 : agent.lookup "id" with
  | none =>
    simp [AgentHub.create_session, dictGet, h2, isKeyErrorResult, PyErr.isKeyError]
  | some aid =>
    have hb := h aid h2
    cases h3 : kvs.lookup "session" with
    | none =>
      simp [AgentHub.create_session, dictGet, h2, hb, Json.getKey, h3,
        isKeyErrorResult, PyErr.isKeyError]
    | some s =>
      simp [AgentHub.create_session, dictGet, h2, hb, Json.getKey, h3,
        isKeyErrorResult, PyErr.isKeyError]

/-- Witness for C5 on the acceptance test's transport and agent record: the
agent has `"id"` and the body has `"session"`, so no `KeyError` occurs, in
accordance with the equivalence. -/
theorem create_session_key_error_iff_witness :
    isKeyErrorResult (demoHub.create_session demoAgentDict).1 = true ↔
      (demoAgentDict.lookup "id" = none ∨
        [("session", demoSession)].lookup "session" = none) :=
  (create_session_key_error_iff demoHub demoAgentDict [("session", demoSession)]
    (fun _ _ => rfl)).1

/-- C6: a second `find_agent` call with the same name, run on the client
returned by the first call against the same (deterministic) transport,
produces the same result; and the first call leaves the client unchanged —
nothing is cached between calls. -/
theorem find_agent_repeat_same_result (hub : AgentHub) (name : String) :
    ((hub.find_agent name).2.2.find_agent name).1 = (hub.find_agent name).1 ∧
    (hub.find_agent name).2.2 = hub :=
  ⟨rfl, rfl⟩

/-- C7: neither method changes any client state — the client after a
`find_agent` or `create_session` call (successful or failed) equals the
client before it — and `create_session` does not mutate the agent mapping
passed to it. -/
theorem client_and_argument_unchanged (hub : AgentHub) (name : String)
    (agent : List (String × Json)) :
    (hub.find_agent name).2.2 = hub ∧
    (hub.create_session agent).2.2.1 = hub ∧
    (hub.create_session agent).2.2.2 = agent := by
  refine ⟨rfl, ?_, ?_⟩ <;>
    cases h : dictGet agent "id" <;>
      simp [AgentHub.create_session, h]

/-- C8: the response scope acquired by a call is always released.  A
`find_agent` trace is exactly sent–acquired–released for every transport,
including those whose bodies make the `data["agents"][0]` extraction fail; a
`create_session` trace is either empty (no scope was acquired, the
`KeyError("id")` path) or exactly sent–acquired–released, again for every
transport, including ones whose bodies make `data["session"]` fail. -/
theorem response_scope_released (hub : AgentHub) (name : String)
    (agent : List (String × Json)) :
    (hub.find_agent name).2.1 =
      [Event.sent (Request.get "/agents" [("name", name)]),
       Event.acquired, Event.released] ∧
    ((hub.create_session agent).2.1 = [] ∨
      ∃ req, (hub.create_session agent).2.1 =
        [Event.sent req, Event.acquired, Event.released]) := by
  refine ⟨rfl, ?_⟩
  cases h : dictGet agent "id" with
  | error e => left; simp [AgentHub.create_session, h]
  | ok aid =>
    right
    exact ⟨Request.post "/sessions" (Json.obj [("agent_id", aid)]),
      by simp [AgentHub.create_session, h]⟩

/-- C9: two agent mappings agreeing on the value at `"id"` lead
`create_session` to hand the transport identical requests (hence identical
request bodies) and, over the same transport, to return identical results:
no other field of the agent influences either. -/
theorem create_session_id_noninterference (hub : AgentHub)
    (a1 a2 : List (String × Json)) (h : a1.lookup "id" = a2.lookup "id") :
    (hub.create_session a1).1 = (hub.create_session a2).1 ∧
    requestsOf (hub.create_session a1).2.1 =
      requestsOf (hub.create_session a2).2.1 := by
  cases h2 : a1.lookup "id" with
  | none =>
    have h3 : a2.lookup "id" = none := by rw [← h]; exact h2
    simp [AgentHub.create_session, dictGet, h2, h3]
  | some aid =>
    have h3 : a2.lookup "id" = some aid := by rw [← h]; exact h2
    simp [AgentHub.create_session, dictGet, h2, h3]

/-- An agent mapping sharing `demoAgentDict`'s `"id"` value but differing in
every other field. -/
def extraFieldAgent : List (String × Json) :=
  [("id", Json.str "test-agent-1"), ("note", Json.str "different")]

/-- Witness for C9: `demoAgentDict` and `extraFieldAgent` agree only on
`"id"`, and `create_session` gives them identical results and requests. -/
theorem create_session_id_noninterference_witness :
    (demoHub.create_session demoAgentDict).1 =
      (demoHub.create_session extraFieldAgent).1 ∧
    requestsOf (demoHub.create_session demoAgentDict).2.1 =
      requestsOf (demoHub.create_session extraFieldAgent).2.1 :=
  create_session_id_noninterference demoHub demoAgentDict extraFieldAgent rfl
